import Mathlib

/-! Verification of the `jail` sandbox registry and its RPC bridge
(src/geth/account/importer.go, package `jail`), shallowly embedded in Lean. -/

/-- Script-space JSON-like value, the shape of data crossing the otto VM
boundary (request ids, params, parsed results, response objects). -/
inductive JsVal where
  | null
  | undefined
  | bool (b : Bool)
  | num (n : Int)
  | str (s : String)
  | arr (elems : List JsVal)
  | obj (fields : List (String × JsVal))

/-- Modelled from the spec: `RPCCall` is the transient per-request record
decoded from script-supplied JSON: id (echoed back, any JSON scalar),
method name and ordered params.  (The Go struct lives in the out-of-scope
`geth` package.) -/
structure RPCCall where
  id : JsVal
  method : String
  params : List JsVal

/-- The Go zero value of `RPCCall`: what `reqs[0]` holds when
`json.Unmarshal` fails and leaves the element untouched. -/
def zeroRPCCall : RPCCall := { id := JsVal.null, method := "", params := [] }


/-- One isolated jailed runtime (`JailedRuntime` in the source): session id
and its exclusively owned otto VM, modelled by an opaque handle.  Its
capacity-1 timed semaphore (`sem`) is a shared mutable Go object; its
occupancy is threaded separately through `Jail.Call` (see `semAcquire`). -/
structure JailedRuntime where
  id : String
  vm : Nat

/-- `NewJailedRuntime` from the source; the fresh `otto.New()` instance is
modelled by the caller-supplied opaque handle. -/
def NewJailedRuntime (id : String) (vmHandle : Nat) : JailedRuntime :=
  { id := id, vm := vmHandle }

/-- The `Jail` registry state: lazily cached client wrapper and request
queue (opaque handles), the cell map, and the bootstrap script text. -/
structure Jail where
  client : Option Nat
  cells : List (String × JailedRuntime)
  statusJS : String
  requestQueue : Option Nat

/-- Go map read `jail.cells[chatId]`. -/
def cellsLookup (cs : List (String × JailedRuntime)) (k : String) :
    Option JailedRuntime :=
  (cs.find? (fun p => p.1 == k)).map (fun p => p.2)

/-- Go map write `jail.cells[chatId] = cell` (replace or insert). -/
def cellsStore (cs : List (String × JailedRuntime)) (k : String)
    (v : JailedRuntime) : List (String × JailedRuntime) :=
  if cs.any (fun p => p.1 == k) then
    cs.map (fun p => if p.1 == k then (k, v) else p)
  else cs ++ [(k, v)]

/-- The message of `ErrInvalidJail` in the source. -/
def errInvalidJail : String := "jail environment is not properly initialized"

/-- Modelled from the spec: the `NodeUnavailable` failure
(`geth.ErrInvalidGethNode`, defined in the out-of-scope `geth` package)
returned when no node is currently running. -/
def errInvalidGethNode : String := "there is no running node"

/-- Environment provided by the out-of-scope node manager: whether a node
runs, and the results of resolving the restart wrapper / request queue. -/
structure NodeEnv where
  hasNode : Bool
  clientResult : Except String Nat
  queueResult : Except String Nat

/-- `(*Jail).ClientRestartWrapper`: return the cached client if set;
otherwise fail when no node runs, else resolve through the node manager and
cache the handle on success.  (The `jail == nil` guard of the source is
handled by modelling a non-nil receiver.) -/
def Jail.ClientRestartWrapper (jail : Jail) (env : NodeEnv) :
    Except String Nat × Jail :=
  match jail.client with
  | some c => (Except.ok c, jail)
  | none =>
    if env.hasNode then
      match env.clientResult with
      | Except.ok c => (Except.ok c, { jail with client := some c })
      | Except.error e => (Except.error e, jail)
    else (Except.error errInvalidGethNode, jail)

/-- `(*Jail).RequestQueue`: same lazy-caching discipline for the jailed
request queue handle. -/
def Jail.RequestQueue (jail : Jail) (env : NodeEnv) :
    Except String Nat × Jail :=
  match jail.requestQueue with
  | some q => (Except.ok q, jail)
  | none =>
    if env.hasNode then
      match env.queueResult with
      | Except.ok q => (Except.ok q, { jail with requestQueue := some q })
      | Except.error e => (Except.error e, jail)
    else (Except.error errInvalidGethNode, jail)

/-- The `Cell[id] doesn't exist.` message built by `fmt.Sprintf` in the
source (`Call` and `GetVM`). -/
def cellNotFoundMsg (chatId : String) : String :=
  "Cell[" ++ chatId ++ "] doesn\x27t exist."

/-- `(*Jail).GetVM`: pure lookup; the jail state is returned unchanged to
make the absence of writes explicit. -/
def Jail.GetVM (jail : Jail) (chatId : String) : Except String Nat × Jail :=
  match cellsLookup jail.cells chatId with
  | none => (Except.error (cellNotFoundMsg chatId), jail)
  | some cell => (Except.ok cell.vm, jail)

/-- JSON string escaping of one character, as `json.Marshal` performs on
the error message (restricted to backslash and quote — Go escapes further
characters, immaterial for the plain ASCII messages compared here). -/
def escapeJSONChar (c : Char) : List Char :=
  if c = '\\' then ['\\', '\\']
  else if c = '"' then ['\\', '"']
  else [c]

/-- `printError`: `json.Marshal` of `geth.JSONError` produces the
uniform error envelope. -/
def jsonQuote (s : String) : String :=
  "\"" ++ String.mk (s.data.flatMap escapeJSONChar) ++ "\""

def printError (error : String) : String :=
  "\x7b\"error\":" ++ jsonQuote error ++ "\x7d"

/-- The `fmt.Sprintf` result-envelope shape used by `printResult`. -/
def resultEnvelope (res : String) : String :=
  "\x7b\"result\": " ++ res ++ "\x7d"

/-- `printResult` from the source: error envelope when `err` is set,
otherwise the result envelope with the literal `undefined` normalized to
`null`. -/
def printResult (res : String) (err : Option String) : String :=
  match err with
  | some e => printError e
  | none => resultEnvelope (if res == "undefined" then "null" else res)

/-- An empty jail used by concrete witnesses. -/
def emptyJail : Jail :=
  { client := none, cells := [], statusJS := "", requestQueue := none }


/-- Environment for one `Parse` run, supplying the outcomes of the otto
evaluations the host cannot predict: the error of `vm.Run(initJjs)` (the
only one the source binds to `err`), the error of the second `vm.Run(jjs)`
(preamble + caller script + catalog trailer — the source discards it), the
string form of the `catalog` global afterwards (`res.String()`, the literal
`undefined` when the global is unset), and the fresh `otto.New()` handle. -/
structure ParseEnv where
  initRunErr : Option String
  mainRunErr : Option String
  catalogStr : String
  freshVM : Nat

set_option linter.unusedVariables false in
/-- `(*Jail).Parse`: installs a fresh runtime for `chatId` (replacing any
previous cell), runs the bootstrap script binding `err`, runs the preamble +
caller script + catalog trailer with the error discarded (`vm.Run(jjs)` has
no binder in the source, mirrored by `penv.mainRunErr` being unused), reads
the `catalog` global and returns `printResult(res.String(), err)`. -/
def Jail.Parse (jail : Jail) (penv : ParseEnv) (chatId js : String) :
    String × Jail :=
  let jail1 :=
    { jail with
      cells := cellsStore jail.cells chatId (NewJailedRuntime chatId penv.freshVM) }
  let err := penv.initRunErr
  let res := penv.catalogStr
  (printResult res err, jail1)

/-- The `semaphore.ErrNoTickets` message from eapache/go-resiliency,
returned when `Acquire` times out after `JailedRuntimeRequestTimeout`. -/
def errNoTickets : String := "could not acquire semaphore ticket"

/-- go-resiliency capacity-1 timed semaphore `Acquire`: succeed at once when
a ticket slot is free (occupancy below 1), otherwise time out after the
bounded wait and return `ErrNoTickets` without acquiring. -/
def semAcquire (occupied : Nat) : Option String × Nat :=
  if occupied < 1 then (none, occupied + 1) else (some errNoTickets, occupied)

/-- go-resiliency semaphore `Release`: consume one ticket from the channel.
(When the caller never acquired — the timed-out path — this consumes the
ticket of whichever call is actually in flight.) -/
def semRelease (occupied : Nat) : Nat := occupied - 1

/-- Everything `Jail.Call` produces: the returned JSON string, the jail
state after the call, the target cell's gate occupancy after the deferred
`Release`, the error `sem.Acquire()` returned (the source discards it), and
the `(path, args)` actually passed to `vm.Call("call", nil, path, args)` —
`none` when the VM was never touched. -/
structure CallResult where
  output : String
  jail : Jail
  gate : Nat
  acquireErr : Option String
  vmInvoked : Option (String × String)

/-- `(*Jail).Call`: resolve the client wrapper first (failing fast with its
error), then look up the cell (`Cell[id] doesn't exist.` when absent), then
`cell.sem.Acquire()` — whose error the source silently discards — run
`vm.Call("call", nil, path, args)` (outcome supplied by `vmCall` as the
pair of `res.String()` and the evaluation error) and return
`printResult`; the deferred `Release` runs on exit.  `gate` is the target
cell's semaphore occupancy when the call starts. -/
def Jail.Call (jail : Jail) (env : NodeEnv)
    (vmCall : String → String → String × Option String)
    (gate : Nat) (chatId path args : String) : CallResult :=
  match jail.ClientRestartWrapper env with
  | (Except.error e, jail1) =>
    { output := printError e, jail := jail1, gate := gate,
      acquireErr := none, vmInvoked := none }
  | (Except.ok _, jail1) =>
    match cellsLookup jail1.cells chatId with
    | none =>
      { output := printError (cellNotFoundMsg chatId), jail := jail1,
        gate := gate, acquireErr := none, vmInvoked := none }
    | some _ =>
      let acq := semAcquire gate
      let r := vmCall path args
      { output := printResult r.1 r.2, jail := jail1,
        gate := semRelease acq.2, acquireErr := acq.1,
        vmInvoked := some (path, args) }

/-- An otto/script object as an association list of fields. -/
abbrev JsObj := List (String × JsVal)

/-- otto `Object.Set` (and Go map insertion): replace the field when the key
is present, append it otherwise. -/
def objSet (o : JsObj) (k : String) (v : JsVal) : JsObj :=
  if o.any (fun p => p.1 == k) then
    o.map (fun p => if p.1 == k then (k, v) else p)
  else o ++ [(k, v)]

/-- Field read on a script object. -/
def objGet (o : JsObj) (k : String) : Option JsVal :=
  (o.find? (fun p => p.1 == k)).map (fun p => p.2)

/-- `newErrorResponse` from the source: the Go map literal
`version: "2.0", id: id, error: (code: code, msg: msg)` — note that the
inner map literally uses the variable `msg` as the KEY of the message entry
and the outer map uses the key `version`, not `jsonrpc` — marshalled and
re-evaluated inside the VM.  Map-literal entries are modelled in source
order with later duplicate keys overwriting (`objSet`). -/
def newErrorResponse (code : Int) (msg : String) (id : JsVal) : JsObj :=
  objSet (objSet (objSet [] "version" (JsVal.str "2.0")) "id" id) "error"
    (JsVal.obj (objSet [("code", JsVal.num code)] msg (JsVal.str msg)))

/-- Outcome of `client.Call(&result, req.Method, req.Params...)` as relayed
through the `errc`/`errc2` hand-off, classified exactly as the source's
`switch err := err.(type)`: `ok none` is a nil error with a nil raw result
(the JSON `null` case), `ok (some raw)` a nil error with raw JSON text,
`rpcErr` an `rpc.Error` with its code, and `otherErr` any other error. -/
inductive DispatchResult where
  | ok (raw : Option String)
  | rpcErr (code : Int) (msg : String)
  | otherErr (msg : String)

/-- Events observable around the bridge's per-request loop: the pre-dispatch
hook (`PreProcessRequest`), the backend dispatch itself, and the
post-dispatch hook (`PostProcessRequest`, registered with `defer`). -/
inductive HookEvent where
  | preHook (r : RPCCall)
  | dispatched (r : RPCCall)
  | postHook (r : RPCCall)

/-- Environment of one `Send` invocation: everything the otto VM, the JSON
codec and the backend decide.  `stringifyArg` is the outcome of
`JSON.stringify(call.Argument(0))`; `unmarshalBatchFn` models
`json.Unmarshal` into `[]RPCCall` (the decoded elements plus a success
flag — on failure the slice keeps whatever was filled, and the source
discards the error); `unmarshalOneFn` models decoding one `RPCCall`
(`none` on failure, leaving the zero value in place); `dispatchFn` the
backend call per request; `parseFn` the VM's `JSON.parse` of a raw result;
`hasCallback` whether `call.Argument(1)` has class `Function`. -/
structure SendEnv where
  stringifyArg : Except String String
  unmarshalBatchFn : String → List RPCCall × Bool
  unmarshalOneFn : String → Option RPCCall
  dispatchFn : RPCCall → DispatchResult
  parseFn : String → Except String JsVal
  hasCallback : Bool

/-- The batch test of the source: `rawReq[0] == '['`, i.e. the FIRST byte
(no whitespace skipping).  Byte 0 of the UTF-8 encoding equals `'['`
exactly when the first character does.  (Go panics on an empty slice; the
stringify output is never empty, and the model returns `false` there.) -/
def isBatchRaw (raw : String) : Bool :=
  match raw.data with
  | c :: _ => c == '['
  | [] => false

/-- Following the spec's words, for comparison with `isBatchRaw`: the first
non-whitespace character of the serialized request. -/
def firstNonWSChar (s : String) : Option Char :=
  s.data.find? (fun c => !c.isWhitespace)

/-- The decode step of `Send`: batch inputs keep whatever `json.Unmarshal`
filled (its error is discarded); single inputs become a length-1 slice
holding the decoded call, or the zero value when decoding fails (that error
is discarded too). -/
def decodeReqs (senv : SendEnv) (raw : String) : List RPCCall × Bool :=
  if isBatchRaw raw then ((senv.unmarshalBatchFn raw).1, true)
  else
    (match senv.unmarshalOneFn raw with
     | some r => [r]
     | none => [zeroRPCCall], false)

/-- The response object built for one request: start from
`("jsonrpc":"2.0")`, set `id`, then classify the dispatch outcome exactly
as the source's `switch` does (null raw result ⇒ native null; raw result ⇒
`JSON.parse`, whose failure replaces the whole object with
`newErrorResponse`; `rpc.Error` ⇒ a `code`/`message` error field; any other
error ⇒ `newErrorResponse`). -/
def respForReq (senv : SendEnv) (r : RPCCall) : JsObj :=
  let base := objSet (objSet [] "jsonrpc" (JsVal.str "2.0")) "id" r.id
  match senv.dispatchFn r with
  | DispatchResult.ok none => objSet base "result" JsVal.null
  | DispatchResult.ok (some raw) =>
    match senv.parseFn raw with
    | Except.error e => newErrorResponse (-32603) e r.id
    | Except.ok v => objSet base "result" v
  | DispatchResult.rpcErr c m =>
    objSet base "error"
      (JsVal.obj [("code", JsVal.num c), ("message", JsVal.str m)])
  | DispatchResult.otherErr m => newErrorResponse (-32603) m r.id

/-- What `Send` returns: either a script-visible exception thrown by
`throwJSException` (a Go panic the otto VM converts into a JS error), or a
returned otto value. -/
inductive SendOutcome where
  | thrown (msg : String)
  | ret (v : JsVal)

/-- Full observable record of one `Send` run. -/
structure SendDetail where
  outcome : SendOutcome
  jail : Jail
  trace : List HookEvent
  reqs : List RPCCall
  batch : Bool
  resps : List JsObj

/-- The decode-and-loop body of `Send`, once client wrapper and request
queue resolved to `j2` and `JSON.stringify` produced `raw`: classify batch
vs. single on the first byte and decode (decode errors discarded); per
request in order, run the pre-dispatch hook, `defer` the post-dispatch
hook — Go defers run at function exit in LIFO order, hence `trace` ends
with the post-hooks in REVERSE registration order — dispatch, and build
the response object; return the full array for a batch, element `"0"`
otherwise (`undefined` on an out-of-range index), and when a callback
function was supplied, invoke it and return `undefined` instead. -/
def sendLoop (j2 : Jail) (senv : SendEnv) (raw : String) : SendDetail :=
  let dec := decodeReqs senv raw
  let reqs := dec.1
  let batch := dec.2
  let resps := reqs.map (respForReq senv)
  let loopTrace :=
    reqs.flatMap (fun r => [HookEvent.preHook r, HookEvent.dispatched r])
  let postTrace := (reqs.map HookEvent.postHook).reverse
  let response :=
    if batch then JsVal.arr (resps.map JsVal.obj)
    else
      match resps.head? with
      | some o => JsVal.obj o
      | none => JsVal.undefined
  let finalVal :=
    if senv.hasCallback then JsVal.undefined else response
  { outcome := SendOutcome.ret finalVal, jail := j2,
    trace := loopTrace ++ postTrace, reqs := reqs, batch := batch,
    resps := resps }

/-- `(*Jail).Send`: resolve the client wrapper, then the request queue
(each failure returns `newErrorResponse(-32603, err, nil)` with a nil id);
re-serialize argument 0 with the VM's own `JSON.stringify`, throwing a
script-visible exception when THAT fails; then run `sendLoop`. -/
def Jail.Send (jail : Jail) (env : NodeEnv) (senv : SendEnv) : SendDetail :=
  match jail.ClientRestartWrapper env with
  | (Except.error e, j1) =>
    { outcome := SendOutcome.ret (JsVal.obj (newErrorResponse (-32603) e JsVal.null)),
      jail := j1, trace := [], reqs := [], batch := false, resps := [] }
  | (Except.ok _, j1) =>
    match j1.RequestQueue env with
    | (Except.error e, j2) =>
      { outcome := SendOutcome.ret (JsVal.obj (newErrorResponse (-32603) e JsVal.null)),
        jail := j2, trace := [], reqs := [], batch := false, resps := [] }
    | (Except.ok _, j2) =>
      match senv.stringifyArg with
      | Except.error e =>
        { outcome := SendOutcome.thrown e, jail := j2, trace := [],
          reqs := [], batch := false, resps := [] }
      | Except.ok raw => sendLoop j2 senv raw

/-- A jail whose lazy handles are already cached and which owns one cell
named `c`; used by concrete instantiations. -/
def jailW : Jail :=
  { client := some 1, cells := [("c", NewJailedRuntime "c" 0)],
    statusJS := "", requestQueue := some 2 }

/-- A node environment with a running node. -/
def envW : NodeEnv :=
  { hasNode := true, clientResult := Except.ok 1, queueResult := Except.ok 2 }

/-- A node environment with no running node. -/
def envNoNode : NodeEnv :=
  { hasNode := false, clientResult := Except.error errInvalidGethNode,
    queueResult := Except.error errInvalidGethNode }

/-- Concrete requests for instantiations. -/
def reqOne : RPCCall := { id := JsVal.num 1, method := "m1", params := [] }

def reqTwo : RPCCall := { id := JsVal.num 2, method := "m2", params := [] }

def reqSeven : RPCCall := { id := JsVal.num 7, method := "m", params := [] }

/-- A two-request batch environment whose dispatches both succeed with a
null result. -/
def senvBatch2 : SendEnv :=
  { stringifyArg := Except.ok "[?]",
    unmarshalBatchFn := fun _ => ([reqOne, reqTwo], true),
    unmarshalOneFn := fun _ => none,
    dispatchFn := fun _ => DispatchResult.ok none,
    parseFn := fun _ => Except.ok JsVal.null,
    hasCallback := false }

/-- A single-request environment whose serialized argument (`true`) cannot
be decoded into the `RPCCall` shape. -/
def senvSingleBad : SendEnv :=
  { stringifyArg := Except.ok "true",
    unmarshalBatchFn := fun _ => ([], false),
    unmarshalOneFn := fun _ => none,
    dispatchFn := fun _ => DispatchResult.ok none,
    parseFn := fun _ => Except.ok JsVal.null,
    hasCallback := false }

/-- An environment where `JSON.stringify` itself fails. -/
def senvStringifyFail : SendEnv :=
  { stringifyArg := Except.error "Converting circular structure to JSON",
    unmarshalBatchFn := fun _ => ([], false),
    unmarshalOneFn := fun _ => none,
    dispatchFn := fun _ => DispatchResult.ok none,
    parseFn := fun _ => Except.ok JsVal.null,
    hasCallback := false }

/-- An environment whose dispatch fails with a non-RPC error `boom`. -/
def senvBoom : SendEnv :=
  { stringifyArg := Except.ok "\x7b?\x7d",
    unmarshalBatchFn := fun _ => ([], false),
    unmarshalOneFn := fun _ => some reqSeven,
    dispatchFn := fun _ => DispatchResult.otherErr "boom",
    parseFn := fun _ => Except.ok JsVal.null,
    hasCallback := false }

/-- An empty-batch environment (`[]`). -/
def senvEmptyBatch : SendEnv :=
  { stringifyArg := Except.ok "[]",
    unmarshalBatchFn := fun _ => ([], true),
    unmarshalOneFn := fun _ => none,
    dispatchFn := fun _ => DispatchResult.ok none,
    parseFn := fun _ => Except.ok JsVal.null,
    hasCallback := false }

/-- A Parse environment where the bootstrap script succeeds but the
caller-supplied script body fails to evaluate, leaving `catalog` unset. -/
def penvBodyFails : ParseEnv :=
  { initRunErr := none,
    mainRunErr := some "ReferenceError: y is not defined",
    catalogStr := "undefined", freshVM := 0 }

/-- A Parse environment where every evaluation step succeeds. -/
def penvOk : ParseEnv :=
  { initRunErr := none, mainRunErr := none,
    catalogStr := "\x7b\"ping\":\x7b\x7d\x7d", freshVM := 0 }

/-- A VM `call` outcome used by concrete `Jail.Call` instantiations. -/
def vmCallOk : String → String → String × Option String :=
  fun _ _ => ("\"pong\"", none)

/-! ## Shared lemmas -/

theorem respForReq_id (senv : SendEnv) (r : RPCCall) :
    objGet (respForReq senv r) "id" = some r.id := by
  unfold respForReq
  cases senv.dispatchFn r with
  | ok raw =>
    cases raw with
    | none => rfl
    | some s =>
      cases hp : senv.parseFn s with
      | error e => simp only [hp]; rfl
      | ok v => simp only [hp]; rfl
  | rpcErr c m => rfl
  | otherErr m => rfl

theorem ClientRestartWrapper_frame (jail : Jail) (env : NodeEnv) :
    ((jail.ClientRestartWrapper env).2).cells = jail.cells ∧
    ((jail.ClientRestartWrapper env).2).statusJS = jail.statusJS ∧
    ((jail.ClientRestartWrapper env).2).requestQueue = jail.requestQueue ∧
    (((jail.ClientRestartWrapper env).2).client = jail.client ∨
      (jail.client = none ∧
        (((jail.ClientRestartWrapper env).2).client).isSome = true)) := by
  unfold Jail.ClientRestartWrapper
  cases h : jail.client with
  | some c => simp [h]
  | none =>
    cases env.hasNode with
    | false => simp [h]
    | true =>
      cases env.clientResult with
      | ok c => simp [h]
      | error e => simp [h]

theorem RequestQueue_frame (jail : Jail) (env : NodeEnv) :
    ((jail.RequestQueue env).2).cells = jail.cells ∧
    ((jail.RequestQueue env).2).statusJS = jail.statusJS ∧
    ((jail.RequestQueue env).2).client = jail.client ∧
    (((jail.RequestQueue env).2).requestQueue = jail.requestQueue ∨
      (jail.requestQueue = none ∧
        (((jail.RequestQueue env).2).requestQueue).isSome = true)) := by
  unfold Jail.RequestQueue
  cases h : jail.requestQueue with
  | some q => simp [h]
  | none =>
    cases env.hasNode with
    | false => simp [h]
    | true =>
      cases env.queueResult with
      | ok q => simp [h]
      | error e => simp [h]

theorem send_resolved (jail j1 j2 : Jail) (env : NodeEnv) (senv : SendEnv)
    (c q : Nat) (raw : String)
    (h1 : jail.ClientRestartWrapper env = (Except.ok c, j1))
    (h2 : j1.RequestQueue env = (Except.ok q, j2))
    (h3 : senv.stringifyArg = Except.ok raw) :
    jail.Send env senv = sendLoop j2 senv raw := by
  unfold Jail.Send
  simp only [h1, h2, h3]

theorem decodeReqs_batch (senv : SendEnv) (raw : String) :
    (decodeReqs senv raw).2 = isBatchRaw raw := by
  unfold decodeReqs
  split
  · next h => simp [h]
  · next h => rw [Bool.not_eq_true] at h; simp [h]

theorem decodeReqs_single (senv : SendEnv) (raw : String)
    (h : isBatchRaw raw = false) :
    (decodeReqs senv raw).1 = [(senv.unmarshalOneFn raw).getD zeroRPCCall] := by
  unfold decodeReqs
  rw [h]
  cases senv.unmarshalOneFn raw <;> rfl

theorem sendLoop_reqs (j2 : Jail) (senv : SendEnv) (raw : String) :
    (sendLoop j2 senv raw).reqs = (decodeReqs senv raw).1 := rfl

theorem sendLoop_resps (j2 : Jail) (senv : SendEnv) (raw : String) :
    (sendLoop j2 senv raw).resps =
      ((decodeReqs senv raw).1).map (respForReq senv) := rfl

theorem sendLoop_batch (j2 : Jail) (senv : SendEnv) (raw : String) :
    (sendLoop j2 senv raw).batch = (decodeReqs senv raw).2 := rfl

theorem sendLoop_jail (j2 : Jail) (senv : SendEnv) (raw : String) :
    (sendLoop j2 senv raw).jail = j2 := rfl

theorem sendLoop_trace (j2 : Jail) (senv : SendEnv) (raw : String) :
    (sendLoop j2 senv raw).trace =
      ((decodeReqs senv raw).1).flatMap
        (fun r => [HookEvent.preHook r, HookEvent.dispatched r]) ++
      (((decodeReqs senv raw).1).map HookEvent.postHook).reverse := rfl

theorem sendLoop_outcome (j2 : Jail) (senv : SendEnv) (raw : String)
    (h4 : senv.hasCallback = false) :
    (sendLoop j2 senv raw).outcome = SendOutcome.ret
      (if (decodeReqs senv raw).2 then
        JsVal.arr ((((decodeReqs senv raw).1).map (respForReq senv)).map JsVal.obj)
      else
        match (((decodeReqs senv raw).1).map (respForReq senv)).head? with
        | some o => JsVal.obj o
        | none => JsVal.undefined) := by
  simp [sendLoop, h4]

theorem isBatchRaw_iff_firstNonWS (raw : String)
    (hne : raw.data ≠ [])
    (hws : ∀ ch, raw.data.head? = some ch → ch.isWhitespace = false) :
    isBatchRaw raw = true ↔ firstNonWSChar raw = some '[' := by
  unfold isBatchRaw firstNonWSChar
  cases hd : raw.data with
  | nil => exact absurd hd hne
  | cons ch rest =>
    have hw : ch.isWhitespace = false := hws ch (by rw [hd]; rfl)
    rw [List.find?_cons_of_pos _ (by simp [hw])]
    constructor
    · intro h
      have : ch = '[' := by simpa using h
      rw [this]
    · intro h
      have : ch = '[' := by simpa using h
      simp [this]

/-! ## Claims -/

/-- C1: for every batch of N well-formed requests processed by the bridge's
`Send`, the output sequence has exactly N responses, the i-th response's id
equals the i-th request's id, a batch returns the full output sequence, and
a single (non-batch) call returns only the first (and only) element of the
output sequence rather than a sequence. -/
theorem C1_batch_response_shape (jail j1 j2 : Jail) (env : NodeEnv)
    (senv : SendEnv) (c q : Nat) (raw : String)
    (h1 : jail.ClientRestartWrapper env = (Except.ok c, j1))
    (h2 : j1.RequestQueue env = (Except.ok q, j2))
    (h3 : senv.stringifyArg = Except.ok raw)
    (h4 : senv.hasCallback = false) :
    (jail.Send env senv).resps.length = (jail.Send env senv).reqs.length
    ∧ (∀ i (hr : i < (jail.Send env senv).resps.length)
        (hq : i < (jail.Send env senv).reqs.length),
        objGet ((jail.Send env senv).resps.get ⟨i, hr⟩) "id" =
          some (((jail.Send env senv).reqs.get ⟨i, hq⟩).id))
    ∧ ((jail.Send env senv).batch = true →
        (jail.Send env senv).outcome =
          SendOutcome.ret (JsVal.arr ((jail.Send env senv).resps.map JsVal.obj)))
    ∧ ((jail.Send env senv).batch = false →
        (jail.Send env senv).reqs.length = 1 ∧
        (jail.Send env senv).outcome =
          SendOutcome.ret (JsVal.obj ((jail.Send env senv).resps.headD []))) := by
  rw [send_resolved jail j1 j2 env senv c q raw h1 h2 h3]
  refine ⟨?_, ?_, ?_, ?_⟩
  · rw [sendLoop_resps, sendLoop_reqs, List.length_map]
  · intro i hr hq
    simp only [sendLoop_resps, sendLoop_reqs, List.get_eq_getElem,
      List.getElem_map] at hr hq ⊢
    exact respForReq_id senv _
  · intro hb
    rw [sendLoop_batch] at hb
    rw [sendLoop_outcome j2 senv raw h4, sendLoop_resps, hb]
    simp
  · intro hb
    rw [sendLoop_batch] at hb
    have hsingle : isBatchRaw raw = false := by
      rw [decodeReqs_batch] at hb; exact hb
    have hreqs := decodeReqs_single senv raw hsingle
    constructor
    · rw [sendLoop_reqs, hreqs]; rfl
    · rw [sendLoop_outcome j2 senv raw h4, sendLoop_resps, hb, hreqs]
      simp

/-- Witness for C1 at a concrete two-request batch. -/
theorem C1_batch_response_shape_witness :
    (jailW.Send envW senvBatch2).resps.length =
      (jailW.Send envW senvBatch2).reqs.length :=
  (C1_batch_response_shape jailW jailW jailW envW senvBatch2 1 2 "[?]"
    rfl rfl rfl rfl).1

/-- C2 (code bug): a call issued into a cell whose gate is already held, so
that the bounded wait elapses and `sem.Acquire()` fails with
`ErrNoTickets`, is NOT rejected: the source discards the acquisition error,
invokes the VM anyway, and the deferred `Release` then consumes the
in-flight call's ticket (gate occupancy drops to 0 while that call still
runs). -/
theorem C2_timed_out_call_proceeds :
    (jailW.Call envW vmCallOk 1 "c" "p" "a").acquireErr = some errNoTickets
    ∧ (jailW.Call envW vmCallOk 1 "c" "p" "a").vmInvoked = some ("p", "a")
    ∧ (jailW.Call envW vmCallOk 1 "c" "p" "a").gate = 0
    ∧ (jailW.Call envW vmCallOk 1 "c" "p" "a").output =
        resultEnvelope "\"pong\"" := by
  refine ⟨rfl, rfl, rfl, rfl⟩

/-- C3 (code bug): the `-32603` envelope built by `newErrorResponse` does
not carry the JSON-RPC response shape: the version field is keyed
`version`, not `jsonrpc`, and the failure message is stored under the key
equal to the message text itself (the Go map literal uses the variable
`msg` as the key), not under `message`; only `code` and the request id are
as documented. -/
theorem C3_error_envelope_shape :
    respForReq senvBoom reqSeven =
      [("version", JsVal.str "2.0"), ("id", JsVal.num 7),
        ("error", JsVal.obj [("code", JsVal.num (-32603)),
          ("boom", JsVal.str "boom")])]
    ∧ objGet (respForReq senvBoom reqSeven) "jsonrpc" = none
    ∧ objGet [("code", JsVal.num (-32603)), ("boom", JsVal.str "boom")]
        "message" = none
    ∧ objGet (respForReq senvBoom reqSeven) "id" = some (JsVal.num 7) := by
  refine ⟨rfl, rfl, rfl, rfl⟩

/-- C4 counterexample: when the bootstrap script succeeds but the
caller-supplied script body fails to evaluate (leaving `catalog` unset),
`Parse` does NOT return the error envelope the claim requires — the second
`vm.Run` error is discarded and the result envelope with `null` is
returned. -/
theorem C4_counterexample :
    penvBodyFails.mainRunErr = some "ReferenceError: y is not defined"
    ∧ (emptyJail.Parse penvBodyFails "c" "var x = y;").1 =
        "\x7b\"result\": null\x7d"
    ∧ (emptyJail.Parse penvBodyFails "c" "var x = y;").1 ≠
        printError "ReferenceError: y is not defined" := by
  refine ⟨rfl, rfl, by decide⟩

/-- C4 (amended): `Parse` never raises across the boundary and always
returns a JSON envelope, but the `error` envelope is produced exactly when
the evaluation of the BASE script fails; failures of the preamble, the
caller-supplied body or the catalog serialization are discarded (the output
does not depend on them at all), and the result envelope — with an unset
catalog normalized from `undefined` to `null` — is returned instead. -/
theorem C4_parse_error_envelope_only_for_base_script (jail : Jail)
    (penv : ParseEnv) (x : Option String) (chatId js : String) :
    (jail.Parse { penv with mainRunErr := x } chatId js).1 =
      (jail.Parse penv chatId js).1
    ∧ (∀ e, penv.initRunErr = some e →
        (jail.Parse penv chatId js).1 = printError e)
    ∧ (penv.initRunErr = none →
        (jail.Parse penv chatId js).1 = resultEnvelope
          (if penv.catalogStr == "undefined" then "null"
           else penv.catalogStr)) := by
  refine ⟨rfl, ?_, ?_⟩
  · intro e he
    simp [Jail.Parse, printResult, he]
  · intro hn
    simp [Jail.Parse, printResult, hn]

/-- Witness for the amended C4 at a successful concrete bootstrap. -/
theorem C4_parse_witness :
    (emptyJail.Parse penvOk "c" "x").1 =
      resultEnvelope "\x7b\"ping\":\x7b\x7d\x7d" :=
  (C4_parse_error_envelope_only_for_base_script emptyJail penvOk none
    "c" "x").2.2 rfl

/-- C5 counterexample: a serialized first argument (`true`) that is not
decodable into the `RPCCall` shape does NOT raise a script-visible
exception; the `json.Unmarshal` failure is swallowed and the zero-valued
request is dispatched to the backend (with hooks around it), producing a
normal response. -/
theorem C5_counterexample :
    (jailW.Send envW senvSingleBad).trace =
      [HookEvent.preHook zeroRPCCall, HookEvent.dispatched zeroRPCCall,
        HookEvent.postHook zeroRPCCall]
    ∧ (jailW.Send envW senvSingleBad).outcome =
        SendOutcome.ret (JsVal.obj [("jsonrpc", JsVal.str "2.0"),
          ("id", JsVal.null), ("result", JsVal.null)])
    ∧ (jailW.Send envW senvSingleBad).reqs = [zeroRPCCall] := by
  refine ⟨rfl, rfl, rfl⟩

/-- C5 (amended): the bridge throws a script-visible exception exactly when
the VM's own `JSON.stringify` of the argument fails (and then dispatches
nothing); once serialization succeeds nothing is ever thrown — a non-batch
payload that fails to decode is replaced by the zero-valued request, which
IS dispatched to the backend. -/
theorem C5_throw_only_for_stringify_failure (jail j1 j2 : Jail)
    (env : NodeEnv) (senv : SendEnv) (c q : Nat)
    (h1 : jail.ClientRestartWrapper env = (Except.ok c, j1))
    (h2 : j1.RequestQueue env = (Except.ok q, j2)) :
    (∀ e, senv.stringifyArg = Except.error e →
      (jail.Send env senv).outcome = SendOutcome.thrown e
      ∧ (jail.Send env senv).trace = []
      ∧ (jail.Send env senv).reqs = [])
    ∧ (∀ raw, senv.stringifyArg = Except.ok raw →
        ∀ m, (jail.Send env senv).outcome ≠ SendOutcome.thrown m)
    ∧ (∀ raw, senv.stringifyArg = Except.ok raw →
        isBatchRaw raw = false → senv.unmarshalOneFn raw = none →
        (jail.Send env senv).reqs = [zeroRPCCall]
        ∧ HookEvent.dispatched zeroRPCCall ∈ (jail.Send env senv).trace) := by
  refine ⟨?_, ?_, ?_⟩
  · intro e he
    unfold Jail.Send
    simp [h1, h2, he]
  · intro raw hr m
    rw [send_resolved jail j1 j2 env senv c q raw h1 h2 hr]
    simp [sendLoop]
  · intro raw hr hb hu
    rw [send_resolved jail j1 j2 env senv c q raw h1 h2 hr]
    have hreqs : (decodeReqs senv raw).1 = [zeroRPCCall] := by
      rw [decodeReqs_single senv raw hb, hu]; rfl
    refine ⟨by rw [sendLoop_reqs, hreqs], ?_⟩
    rw [sendLoop_trace, hreqs]
    simp

/-- Witness for the amended C5: one instance where stringify fails (the
exception is thrown), one where decoding fails (a zero request is
dispatched). -/
theorem C5_throw_witness :
    (jailW.Send envW senvStringifyFail).outcome =
      SendOutcome.thrown "Converting circular structure to JSON"
    ∧ HookEvent.dispatched zeroRPCCall ∈ (jailW.Send envW senvSingleBad).trace :=
  ⟨((C5_throw_only_for_stringify_failure jailW jailW jailW envW
      senvStringifyFail 1 2 rfl rfl).1 _ rfl).1,
   ((C5_throw_only_for_stringify_failure jailW jailW jailW envW
      senvSingleBad 1 2 rfl rfl).2.2 "true" rfl rfl rfl).2⟩

/-- C6: the bridge classifies batch vs. single on the first byte of the
re-serialized argument — which, the VM's serializer emitting no leading
whitespace, is its first non-whitespace byte: `[` means batch (decoded as
the ordered `RPCCall` sequence `json.Unmarshal` produced), anything else
means single (one decoded `RPCCall` — or the zero value — wrapped in a
length-1 sequence), and an empty batch yields an empty output sequence. -/
theorem C6_batch_detection (jail j1 j2 : Jail) (env : NodeEnv)
    (senv : SendEnv) (c q : Nat) (raw : String)
    (h1 : jail.ClientRestartWrapper env = (Except.ok c, j1))
    (h2 : j1.RequestQueue env = (Except.ok q, j2))
    (h3 : senv.stringifyArg = Except.ok raw)
    (hne : raw.data ≠ [])
    (hws : ∀ ch, raw.data.head? = some ch → ch.isWhitespace = false) :
    ((jail.Send env senv).batch = true ↔ firstNonWSChar raw = some '[')
    ∧ ((jail.Send env senv).batch = true →
        (jail.Send env senv).reqs = (senv.unmarshalBatchFn raw).1)
    ∧ ((jail.Send env senv).batch = false →
        (jail.Send env senv).reqs = [(senv.unmarshalOneFn raw).getD zeroRPCCall])
    ∧ ((senv.unmarshalBatchFn raw).1 = [] → (jail.Send env senv).batch = true →
        (jail.Send env senv).resps = []
        ∧ (senv.hasCallback = false →
            (jail.Send env senv).outcome = SendOutcome.ret (JsVal.arr []))) := by
  rw [send_resolved jail j1 j2 env senv c q raw h1 h2 h3]
  refine ⟨?_, ?_, ?_, ?_⟩
  · rw [sendLoop_batch, decodeReqs_batch]
    exact isBatchRaw_iff_firstNonWS raw hne hws
  · intro hb
    rw [sendLoop_batch, decodeReqs_batch] at hb
    rw [sendLoop_reqs]
    simp [decodeReqs, hb]
  · intro hb
    rw [sendLoop_batch, decodeReqs_batch] at hb
    rw [sendLoop_reqs]
    exact decodeReqs_single senv raw hb
  · intro hempty hb
    rw [sendLoop_batch, decodeReqs_batch] at hb
    have hreqs : (decodeReqs senv raw).1 = [] := by
      simp [decodeReqs, hb, hempty]
    constructor
    · rw [sendLoop_resps, hreqs]; rfl
    · intro hcb
      rw [sendLoop_outcome j2 senv raw hcb, decodeReqs_batch, hb, hreqs]
      simp

/-- Witness for C6 at the concrete empty batch `[]`. -/
theorem C6_batch_detection_witness :
    (jailW.Send envW senvEmptyBatch).batch = true
    ∧ (jailW.Send envW senvEmptyBatch).resps = [] := by
  have h := C6_batch_detection jailW jailW jailW envW senvEmptyBatch 1 2 "[]"
    rfl rfl rfl (by decide)
    (fun ch hch => by
      have : ch = '[' := by simpa using hch.symm
      rw [this]; decide)
  have hb : (jailW.Send envW senvEmptyBatch).batch = true := h.1.mpr (by decide)
  exact ⟨hb, (h.2.2.2 rfl hb).1⟩

/-- C7 counterexample: `Call` resolves the client accessor BEFORE looking
up the cell, so with no node available a dispatch against an unknown
identifier fails with the node-unavailable envelope, not the
`CellNotFound` envelope the claim requires unconditionally. -/
theorem C7_counterexample :
    (emptyJail.Call envNoNode vmCallOk 0 "ghost" "p" "a").output =
      printError errInvalidGethNode
    ∧ (emptyJail.Call envNoNode vmCallOk 0 "ghost" "p" "a").output ≠
        printError (cellNotFoundMsg "ghost")
    ∧ (emptyJail.Call envNoNode vmCallOk 0 "ghost" "p" "a").vmInvoked = none := by
  refine ⟨rfl, by decide, rfl⟩

/-- C7 (amended): `Call` first acquires the client accessor, failing fast
with its error; WHEN that succeeds, an unknown identifier fails with the
`CellNotFound` envelope without touching any VM, an existing cell has its
`call` entry point invoked with `(path, args)` and its outcome wrapped by
`printResult`, and in all cases the registry's cell mapping is unchanged
(no cell is created as a side effect). -/
theorem C7_cell_not_found (jail j1 : Jail) (env : NodeEnv)
    (vmCall : String → String → String × Option String) (gate : Nat)
    (chatId path args : String) (c : Nat)
    (h : jail.ClientRestartWrapper env = (Except.ok c, j1)) :
    (cellsLookup j1.cells chatId = none →
      (jail.Call env vmCall gate chatId path args).output =
        printError (cellNotFoundMsg chatId)
      ∧ (jail.Call env vmCall gate chatId path args).vmInvoked = none)
    ∧ (∀ cell, cellsLookup j1.cells chatId = some cell →
        (jail.Call env vmCall gate chatId path args).vmInvoked =
          some (path, args)
        ∧ (jail.Call env vmCall gate chatId path args).output =
            printResult (vmCall path args).1 (vmCall path args).2)
    ∧ (jail.Call env vmCall gate chatId path args).jail.cells = jail.cells := by
  have hcells : j1.cells = jail.cells := by
    have hf := (ClientRestartWrapper_frame jail env).1
    rw [h] at hf
    exact hf
  unfold Jail.Call
  simp only [h]
  refine ⟨?_, ?_, ?_⟩
  · intro hn
    simp [hn]
  · intro cell hc
    simp [hc]
  · cases hc : cellsLookup j1.cells chatId with
    | none => simpa using hcells
    | some cell => simpa using hcells

/-- Witness for the amended C7 at a concrete unknown identifier. -/
theorem C7_cell_not_found_witness :
    (jailW.Call envW vmCallOk 0 "ghost" "p" "a").output =
      printError (cellNotFoundMsg "ghost")
    ∧ (jailW.Call envW vmCallOk 0 "ghost" "p" "a").jail.cells = jailW.cells :=
  ⟨((C7_cell_not_found jailW jailW envW vmCallOk 0 "ghost" "p" "a" 1
      rfl).1 rfl).1,
   (C7_cell_not_found jailW jailW envW vmCallOk 0 "ghost" "p" "a" 1
      rfl).2.2⟩

/-- C8 counterexample: for a two-request batch the post-dispatch hooks are
deferred to the exit of the whole `Send` invocation and Go runs deferred
calls LAST-IN-FIRST-OUT, so they fire in REVERSE registration order —
`[post r2, post r1]` — not in the registration order the claim states. -/
theorem C8_counterexample :
    (jailW.Send envW senvBatch2).trace =
      [HookEvent.preHook reqOne, HookEvent.dispatched reqOne,
        HookEvent.preHook reqTwo, HookEvent.dispatched reqTwo,
        HookEvent.postHook reqTwo, HookEvent.postHook reqOne]
    ∧ (jailW.Send envW senvBatch2).trace ≠
      [HookEvent.preHook reqOne, HookEvent.dispatched reqOne,
        HookEvent.preHook reqTwo, HookEvent.dispatched reqTwo,
        HookEvent.postHook reqOne, HookEvent.postHook reqTwo] := by
  have htr : (jailW.Send envW senvBatch2).trace =
      [HookEvent.preHook reqOne, HookEvent.dispatched reqOne,
        HookEvent.preHook reqTwo, HookEvent.dispatched reqTwo,
        HookEvent.postHook reqTwo, HookEvent.postHook reqOne] := rfl
  refine ⟨htr, ?_⟩
  rw [htr]
  intro hcontra
  simp [reqOne, reqTwo] at hcontra

/-- C8 (amended): for every request in a batch the pre-dispatch hook runs
immediately before that request's dispatch, and one post-dispatch hook per
request is deferred to the exit of the whole batch's processing scope,
where the queued post-hooks run — regardless of any dispatch outcome — in
REVERSE registration order (Go `defer` is LIFO). -/
theorem C8_hook_trace (jail j1 j2 : Jail) (env : NodeEnv) (senv : SendEnv)
    (c q : Nat) (raw : String)
    (h1 : jail.ClientRestartWrapper env = (Except.ok c, j1))
    (h2 : j1.RequestQueue env = (Except.ok q, j2))
    (h3 : senv.stringifyArg = Except.ok raw) :
    (jail.Send env senv).trace =
      (jail.Send env senv).reqs.flatMap
        (fun r => [HookEvent.preHook r, HookEvent.dispatched r])
      ++ ((jail.Send env senv).reqs.map HookEvent.postHook).reverse := by
  rw [send_resolved jail j1 j2 env senv c q raw h1 h2 h3]
  rw [sendLoop_trace, sendLoop_reqs]

/-- Witness for the amended C8 at the concrete two-request batch. -/
theorem C8_hook_trace_witness :
    (jailW.Send envW senvBatch2).trace =
      (jailW.Send envW senvBatch2).reqs.flatMap
        (fun r => [HookEvent.preHook r, HookEvent.dispatched r])
      ++ ((jailW.Send envW senvBatch2).reqs.map HookEvent.postHook).reverse :=
  C8_hook_trace jailW jailW jailW envW senvBatch2 1 2 "[?]" rfl rfl rfl

/-- C9: a backend dispatch that succeeds with a null/absent raw result
makes the bridge set `response.result` to the VM's native null value —
never to the four-character string `null` and never to a re-parsed JSON
text. -/
theorem C9_null_result (senv : SendEnv) (r : RPCCall)
    (h : senv.dispatchFn r = DispatchResult.ok none) :
    objGet (respForReq senv r) "result" = some JsVal.null
    ∧ objGet (respForReq senv r) "result" ≠ some (JsVal.str "null") := by
  have hres : objGet (respForReq senv r) "result" = some JsVal.null := by
    unfold respForReq
    simp only [h]
    rfl
  refine ⟨hres, ?_⟩
  rw [hres]
  simp

/-- Witness for C9 at a concrete null-result dispatch. -/
theorem C9_null_result_witness :
    objGet (respForReq senvBatch2 zeroRPCCall) "result" = some JsVal.null :=
  (C9_null_result senvBatch2 zeroRPCCall rfl).1

theorem Call_jail_eq (jail : Jail) (env : NodeEnv)
    (vmCall : String → String → String × Option String) (gate : Nat)
    (chatId path args : String) :
    (jail.Call env vmCall gate chatId path args).jail =
      (jail.ClientRestartWrapper env).2 := by
  unfold Jail.Call
  cases hcw : jail.ClientRestartWrapper env with
  | mk r j1 =>
    cases r with
    | error e => rfl
    | ok c =>
      cases hcl : cellsLookup j1.cells chatId with
      | none => simp [hcl]
      | some cell => simp [hcl]

theorem GetVM_jail_eq (jail : Jail) (chatId : String) :
    (jail.GetVM chatId).2 = jail := by
  unfold Jail.GetVM
  cases cellsLookup jail.cells chatId with
  | none => rfl
  | some cell => rfl

theorem Send_jail_eq (jail : Jail) (env : NodeEnv) (senv : SendEnv) :
    (jail.Send env senv).jail = (jail.ClientRestartWrapper env).2
    ∨ (jail.Send env senv).jail =
        (((jail.ClientRestartWrapper env).2).RequestQueue env).2 := by
  unfold Jail.Send
  cases hcw : jail.ClientRestartWrapper env with
  | mk r j1 =>
    cases r with
    | error e => exact Or.inl rfl
    | ok c =>
      right
      cases hrq : j1.RequestQueue env with
      | mk r2 j2 =>
        cases r2 with
        | error e => simp [hrq]
        | ok q =>
          cases hst : senv.stringifyArg with
          | error e => simp [hrq, hst]
          | ok raw => simp [hrq, hst, sendLoop_jail]

theorem Send_jail_frame (jail : Jail) (env : NodeEnv) (senv : SendEnv) :
    (jail.Send env senv).jail.cells = jail.cells
    ∧ (jail.Send env senv).jail.statusJS = jail.statusJS
    ∧ ((jail.Send env senv).jail.client = jail.client
        ∨ (jail.client = none ∧
            ((jail.Send env senv).jail.client).isSome = true))
    ∧ ((jail.Send env senv).jail.requestQueue = jail.requestQueue
        ∨ (jail.requestQueue = none ∧
            ((jail.Send env senv).jail.requestQueue).isSome = true)) := by
  have hf := ClientRestartWrapper_frame jail env
  cases Send_jail_eq jail env senv with
  | inl h =>
    rw [h]
    exact ⟨hf.1, hf.2.1, hf.2.2.2, Or.inl hf.2.2.1⟩
  | inr h =>
    rw [h]
    have hg := RequestQueue_frame (jail.ClientRestartWrapper env).2 env
    refine ⟨hg.1.trans hf.1, hg.2.1.trans hf.2.1, ?_, ?_⟩
    · rw [hg.2.2.1]
      exact hf.2.2.2
    · cases hg.2.2.2 with
      | inl hsame => exact Or.inl (hsame.trans hf.2.2.1)
      | inr hset => exact Or.inr ⟨hf.2.2.1 ▸ hset.1, hset.2⟩

/-- C10: `Call`, `GetVM` and the bridge's `Send` leave the registry's cell
mapping and bootstrap text unchanged — no cell is created, removed or
replaced — and the only registry fields they may mutate are the lazily
cached client handle and request-queue handle, each moving at most from
unset to a resolved value and never overwritten once set (`GetVM` writes
nothing at all, and `Call` never touches the request-queue handle). -/
theorem C10_registry_frame (jail : Jail) (env : NodeEnv) (senv : SendEnv)
    (vmCall : String → String → String × Option String) (gate : Nat)
    (chatId path args : String) :
    (jail.Call env vmCall gate chatId path args).jail.cells = jail.cells
    ∧ (jail.Call env vmCall gate chatId path args).jail.statusJS =
        jail.statusJS
    ∧ (jail.Call env vmCall gate chatId path args).jail.requestQueue =
        jail.requestQueue
    ∧ ((jail.Call env vmCall gate chatId path args).jail.client = jail.client
        ∨ (jail.client = none ∧
            ((jail.Call env vmCall gate chatId path args).jail.client).isSome
              = true))
    ∧ (jail.GetVM chatId).2 = jail
    ∧ (jail.Send env senv).jail.cells = jail.cells
    ∧ (jail.Send env senv).jail.statusJS = jail.statusJS
    ∧ ((jail.Send env senv).jail.client = jail.client
        ∨ (jail.client = none ∧
            ((jail.Send env senv).jail.client).isSome = true))
    ∧ ((jail.Send env senv).jail.requestQueue = jail.requestQueue
        ∨ (jail.requestQueue = none ∧
            ((jail.Send env senv).jail.requestQueue).isSome = true)) := by
  have hcall := Call_jail_eq jail env vmCall gate chatId path args
  have hf := ClientRestartWrapper_frame jail env
  have hs := Send_jail_frame jail env senv
  rw [hcall]
  exact ⟨hf.1, hf.2.1, hf.2.2.1, hf.2.2.2, GetVM_jail_eq jail chatId,
    hs.1, hs.2.1, hs.2.2.1, hs.2.2.2⟩
